import Mathlib

/-!
Shallow embedding of the AI-triage service core
(rules engine, message pipeline, alert publisher, consumer startup,
state-store eviction) together with theorems settling the spec claims.

Source files embedded:
- src/rules/types.ts   : data model
- src/rules/engine.ts  : RulesEngine (evaluate, updateViolationCount,
                         calculateSeverity, getSuggestedAction,
                         cleanupStaleStates)
- src/nats/consumer.ts : VitalsConsumer (start, handleMessage)
- src/nats/publisher.ts: AlertPublisher (publishAlert)

Numbers in the source are JS numbers; all metric values and thresholds in
the repository's schemas and tests are integers, so they are embedded as
`Int`. Timestamps (`Date.now()` values) are embedded as `Int` milliseconds
passed in explicitly.
-/

/-- Structure `VitalsData` from src/rules/types.ts. -/
structure VitalsData where
  patient_id : String
  heart_rate : Int
  oxygen_saturation : Int
  timestamp : String
deriving DecidableEq, Repr

/-- Structure `ThresholdRule` from src/rules/types.ts: every field is optional. -/
structure ThresholdRule where
  high_threshold : Option Int := none
  low_threshold : Option Int := none
  persist_samples : Option Nat := none
deriving DecidableEq, Repr

/-- Structure `RulesConfig` from src/rules/types.ts. -/
structure RulesConfig where
  heart_rate : Option ThresholdRule := none
  spo2 : Option ThresholdRule := none
deriving DecidableEq, Repr

/-- Type `Severity` from src/rules/types.ts. -/
inductive Severity where
  | low
  | medium
  | high
deriving DecidableEq, Repr

/-- Structure `AlertReason` from src/rules/types.ts. -/
structure AlertReason where
  code : String
  message : String
deriving DecidableEq, Repr

/-- Structure `AlertResult` from src/rules/types.ts: the three decision fields are
optional and absent exactly when the source object omits them. -/
structure AlertResult where
  shouldAlert : Bool
  severity : Option Severity := none
  reasons : Option (List AlertReason) := none
  suggestedAction : Option String := none
deriving DecidableEq, Repr

/-- The `violations` record of `PatientState` (src/rules/types.ts).
In the source each counter is an optional number read through `|| 0`,
so an absent counter is observationally 0; the embedding stores the
counter value directly, with 0 for a counter never written. -/
structure Violations where
  heart_rate_high : Nat := 0
  heart_rate_low : Nat := 0
  spo2_low : Nat := 0
deriving DecidableEq, Repr

/-- Structure `PatientState` from src/rules/types.ts. -/
structure PatientState where
  patientId : String
  violations : Violations := {}
  lastUpdated : Int
deriving DecidableEq, Repr

/-- Method `RulesEngine.updateViolationCount` (src/rules/engine.ts lines 254-268)
acting on the addressed counter's value: increment when violating, else
reset to exactly 0.  The source mutates the state field and returns the
new count; the embedding returns the new count, which the caller stores. -/
def updateViolationCount (current : Nat) (isViolating : Bool) : Nat :=
  if isViolating then current + 1 else 0

/-- Direction of a threshold comparison in an engine check block. -/
inductive ThresholdDir where
  | gtDir
  | ltDir
deriving DecidableEq, Repr

/-- The comparison a check block performs: `value > threshold` for a
high threshold, `value < threshold` for a low threshold. -/
def dirViolates (d : ThresholdDir) (value t : Int) : Bool :=
  match d with
  | .gtDir => value > t
  | .ltDir => value < t

/-- JS `rule.persist_samples || 1` (engine.ts lines 282, 296, 310):
`undefined` and `0` are falsy, so both default to 1. -/
def persistSamplesOf (r : ThresholdRule) : Nat :=
  match r.persist_samples with
  | some p => if p = 0 then 1 else p
  | none => 1

/-- One guarded check block of `RulesEngine.evaluate`
(engine.ts lines 279-318): when the threshold is configured, update the
matching violation counter and report whether the updated counter has
reached `persist_samples`; when the threshold is absent the block is
skipped, leaving the counter untouched and emitting nothing. -/
def checkRule (thr : Option Int) (d : ThresholdDir) (persist : Nat)
    (value : Int) (count : Nat) : Nat × Bool :=
  match thr with
  | none => (count, false)
  | some t =>
    let isViolating := dirViolates d value t
    let count' := updateViolationCount count isViolating
    (count', decide (count' ≥ persist))

/-- Accessor `this.rules.heart_rate?.high_threshold` (engine.ts line 279). -/
def hrHighThr (rules : RulesConfig) : Option Int :=
  rules.heart_rate.bind (fun r => r.high_threshold)

/-- Accessor `this.rules.heart_rate?.low_threshold` (engine.ts line 293). -/
def hrLowThr (rules : RulesConfig) : Option Int :=
  rules.heart_rate.bind (fun r => r.low_threshold)

/-- Accessor `this.rules.spo2?.low_threshold` (engine.ts line 307). -/
def spo2LowThr (rules : RulesConfig) : Option Int :=
  rules.spo2.bind (fun r => r.low_threshold)

/-- Accessor `this.rules.heart_rate.persist_samples || 1`; the default 1 also
stands in when the heart-rate rule is absent, in which case both
heart-rate blocks are skipped and the value is never used. -/
def hrPersist (rules : RulesConfig) : Nat :=
  match rules.heart_rate with
  | some r => persistSamplesOf r
  | none => 1

/-- Accessor `this.rules.spo2.persist_samples || 1`, same convention. -/
def spo2Persist (rules : RulesConfig) : Nat :=
  match rules.spo2 with
  | some r => persistSamplesOf r
  | none => 1

/-- The reason pushed by the heart-rate-high block (engine.ts 285-288). -/
def hrHighReason (rules : RulesConfig) (vitals : VitalsData) : AlertReason :=
  { code := "HEART_RATE_HIGH"
    message := "Heart rate " ++ toString vitals.heart_rate ++
      " exceeds threshold " ++ toString ((hrHighThr rules).getD 0) }

/-- The reason pushed by the heart-rate-low block (engine.ts 299-302). -/
def hrLowReason (rules : RulesConfig) (vitals : VitalsData) : AlertReason :=
  { code := "HEART_RATE_LOW"
    message := "Heart rate " ++ toString vitals.heart_rate ++
      " below threshold " ++ toString ((hrLowThr rules).getD 0) }

/-- The reason pushed by the SpO2-low block (engine.ts 313-316). -/
def spo2Reason (rules : RulesConfig) (vitals : VitalsData) : AlertReason :=
  { code := "SPO2_LOW"
    message := "SpO2 " ++ toString vitals.oxygen_saturation ++
      "% below threshold " ++ toString ((spo2LowThr rules).getD 0) ++ "%" }

/-- Method `RulesEngine.calculateSeverity` (engine.ts lines 340-373).  The source
iterates over the reasons returning on the first hit; `List.any` of the
same disjunction is the value it computes. -/
def calculateSeverity (reasons : List AlertReason) (vitals : VitalsData) :
    Severity :=
  if reasons.length ≥ 2 then .high
  else if reasons.any (fun r =>
      (r.code == "SPO2_LOW" && decide (vitals.oxygen_saturation < 85)) ||
      (r.code == "HEART_RATE_HIGH" && decide (vitals.heart_rate > 140)) ||
      (r.code == "HEART_RATE_LOW" && decide (vitals.heart_rate < 40))) then
    .high
  else if reasons.any (fun r =>
      (r.code == "SPO2_LOW" && decide (vitals.oxygen_saturation < 90)) ||
      (r.code == "HEART_RATE_HIGH" && decide (vitals.heart_rate > 130)) ||
      (r.code == "HEART_RATE_LOW" && decide (vitals.heart_rate < 45))) then
    .medium
  else .low

/-- Method `RulesEngine.getSuggestedAction` (engine.ts lines 378-411). -/
def getSuggestedAction (reasons : List AlertReason) (vitals : VitalsData) :
    String :=
  let codes := reasons.map (fun r => r.code)
  if codes.length ≥ 2 then
    "Immediate medical attention required. Multiple vital signs abnormal."
  else if codes.contains "SPO2_LOW" then
    if vitals.oxygen_saturation < 85 then
      "Critical: Administer oxygen immediately and contact physician."
    else "Monitor closely and consider supplemental oxygen."
  else if codes.contains "HEART_RATE_HIGH" then
    if vitals.heart_rate > 140 then
      "Urgent: Check patient status and notify physician."
    else "Monitor patient and reassess in 5 minutes."
  else if codes.contains "HEART_RATE_LOW" then
    if vitals.heart_rate < 40 then
      "Urgent: Check patient responsiveness and notify physician."
    else "Monitor patient closely and assess symptoms."
  else "Continue monitoring vital signs."

/-- The violation counters after the three check blocks of
`RulesEngine.evaluate` (engine.ts lines 279-318) have run on a sample:
each block updates only its own counter, and a block whose threshold is
not configured leaves its counter untouched. -/
def evalViolations (rules : RulesConfig) (vitals : VitalsData)
    (v : Violations) : Violations :=
  { heart_rate_high := (checkRule (hrHighThr rules) .gtDir (hrPersist rules)
      vitals.heart_rate v.heart_rate_high).1
    heart_rate_low := (checkRule (hrLowThr rules) .ltDir (hrPersist rules)
      vitals.heart_rate v.heart_rate_low).1
    spo2_low := (checkRule (spo2LowThr rules) .ltDir (spo2Persist rules)
      vitals.oxygen_saturation v.spo2_low).1 }

/-- The reasons the three check blocks of `RulesEngine.evaluate`
(engine.ts lines 279-318) push, in source push order: heart-rate high,
then heart-rate low, then SpO2 low. -/
def evalReasons (rules : RulesConfig) (vitals : VitalsData)
    (v : Violations) : List AlertReason :=
  (if (checkRule (hrHighThr rules) .gtDir (hrPersist rules)
      vitals.heart_rate v.heart_rate_high).2 then
    [hrHighReason rules vitals] else []) ++
  (if (checkRule (hrLowThr rules) .ltDir (hrPersist rules)
      vitals.heart_rate v.heart_rate_low).2 then
    [hrLowReason rules vitals] else []) ++
  (if (checkRule (spo2LowThr rules) .ltDir (spo2Persist rules)
      vitals.oxygen_saturation v.spo2_low).2 then
    [spo2Reason rules vitals] else [])

/-- Method `RulesEngine.evaluate` (engine.ts lines 273-335) on the state of the
sample's patient.  `now` is the `Date.now()` value written into
`lastUpdated`.  With no reasons the result is `{shouldAlert: false}`;
otherwise severity, reasons and suggested action are all filled in. -/
def evaluate (rules : RulesConfig) (vitals : VitalsData)
    (state : PatientState) (now : Int) : AlertResult × PatientState :=
  if (evalReasons rules vitals state.violations).isEmpty then
    ({ shouldAlert := false },
     { patientId := state.patientId
       violations := evalViolations rules vitals state.violations
       lastUpdated := now })
  else
    ({ shouldAlert := true
       severity := some
         (calculateSeverity (evalReasons rules vitals state.violations)
           vitals)
       reasons := some (evalReasons rules vitals state.violations)
       suggestedAction := some
         (getSuggestedAction (evalReasons rules vitals state.violations)
           vitals) },
     { patientId := state.patientId
       violations := evalViolations rules vitals state.violations
       lastUpdated := now })

/-- The fresh state `getPatientState` creates on first access
(engine.ts lines 236-249): zeroed counters. -/
def freshPatientState (patientId : String) (now : Int) : PatientState :=
  { patientId := patientId, violations := {}, lastUpdated := now }

/-- Function `evaluate` folded over a list of samples for one entity, threading the
patient state; returns the decisions in delivery order and the final
state. -/
def runEval (rules : RulesConfig) (state : PatientState) (now : Int) :
    List VitalsData → List AlertResult × PatientState
  | [] => ([], state)
  | v :: vs =>
    let step := evaluate rules v state now
    let rest := runEval rules step.2 now vs
    (step.1 :: rest.1, rest.2)

/-- The three violation kinds tracked in `PatientState.violations`. -/
inductive VKind where
  | hrHigh
  | hrLow
  | spo2Low
deriving DecidableEq, Repr

/-- The configured threshold governing a violation kind. -/
def kindThr (rules : RulesConfig) : VKind → Option Int
  | .hrHigh => hrHighThr rules
  | .hrLow => hrLowThr rules
  | .spo2Low => spo2LowThr rules

/-- The comparison direction of a violation kind. -/
def kindDir : VKind → ThresholdDir
  | .hrHigh => .gtDir
  | .hrLow => .ltDir
  | .spo2Low => .ltDir

/-- The metric a violation kind inspects. -/
def kindValue (vitals : VitalsData) : VKind → Int
  | .hrHigh => vitals.heart_rate
  | .hrLow => vitals.heart_rate
  | .spo2Low => vitals.oxygen_saturation

/-- The `persist_samples` (with the source's `|| 1` default) governing a
violation kind. -/
def kindPersist (rules : RulesConfig) : VKind → Nat
  | .hrHigh => hrPersist rules
  | .hrLow => hrPersist rules
  | .spo2Low => spo2Persist rules

/-- The violation counter of a kind. -/
def kindCount (v : Violations) : VKind → Nat
  | .hrHigh => v.heart_rate_high
  | .hrLow => v.heart_rate_low
  | .spo2Low => v.spo2_low

/-- The reason code a kind's check block pushes. -/
def kindCode : VKind → String
  | .hrHigh => "HEART_RATE_HIGH"
  | .hrLow => "HEART_RATE_LOW"
  | .spo2Low => "SPO2_LOW"

/-- Whether a sample violates a kind's configured threshold
(false when the threshold is not configured, in which case the check
block is skipped). -/
def kindViolating (rules : RulesConfig) (k : VKind) (vitals : VitalsData) :
    Bool :=
  match kindThr rules k with
  | none => false
  | some t => dirViolates (kindDir k) (kindValue vitals k) t

/-- The codes of the reasons a decision carries (empty when the decision
carries no reasons field). -/
def resultCodes (r : AlertResult) : List String :=
  (r.reasons.getD []).map (fun x => x.code)

/- ===== src/nats/publisher.ts and src/nats/consumer.ts ===== -/

/-- A successfully parsed inbound message (`msg.json()` result).
`payload` is the nested `payload` field when the envelope carries a
truthy one (per the inbound schema the payload is an object, hence
truthy whenever present); `topValue` is the parsed value read directly
as a vitals sample, which is what the source uses when no payload field
is present. -/
structure ParsedValue where
  payload : Option VitalsData
  topValue : VitalsData
deriving DecidableEq, Repr

/-- Step 2 of `handleMessage` (consumer.ts lines 127-133): if the parsed
value carries a (truthy) nested `payload` field, that field is the
sample; otherwise the parsed value itself is the sample. -/
def unwrapSample (pv : ParsedValue) : VitalsData :=
  match pv.payload with
  | some p => p
  | none => pv.topValue

/-- Method `AlertPublisher.publishAlert` (publisher.ts lines 31-91) reduced to
its decision structure: the constructed `AlertEvent` is first validated
against the outbound schema — an invalid event returns `false` without
publishing — and otherwise the result is that of the transport publish
(`true` on success, `false` when the publish throws).
`outboundValid` is the external validator's verdict on the constructed
event, `transportOk` whether the JetStream publish succeeds. -/
def publishAlert (outboundValid : Bool) (transportOk : Bool) : Bool :=
  if !outboundValid then false
  else transportOk

/-- Observable effects of one `VitalsConsumer.handleMessage` run:
acknowledgement, nak (with its delay argument), counter increments, and
the arguments handed to the external collaborators. -/
structure HandleTrace where
  acked : Bool
  nakDelay : Option Int
  received : Nat
  validated : Nat
  alerts_published : Nat
  dropped_invalid : Nat
  dropped_publish_fail : Nat
  validatedOn : Option ParsedValue
  evaluatedOn : Option VitalsData
deriving DecidableEq, Repr

/-- Method `VitalsConsumer.handleMessage` (consumer.ts lines 111-189).
`parseResult` is `none` when `msg.json()` throws; `validate` is the
external `validator.validateVitalsRecorded` verdict on the pre-unwrap
parsed value; `evalFn` is the rules engine's `evaluate` on the unwrapped
sample; `outboundValid` and `transportOk` drive `publishAlert` as above.
The trace records each `msg.ack()`, `msg.nak(delay)`, metric increment,
and the arguments passed to validation and evaluation. -/
def handleMessage (parseResult : Option ParsedValue)
    (validate : ParsedValue → Bool) (evalFn : VitalsData → AlertResult)
    (outboundValid : Bool) (transportOk : Bool) : HandleTrace :=
  match parseResult with
  | none =>
    -- Step 1 failed: JSON parse error ⇒ dropped_invalid, ACK, return.
    { acked := true, nakDelay := none, received := 1, validated := 0
      alerts_published := 0, dropped_invalid := 1, dropped_publish_fail := 0
      validatedOn := none, evaluatedOn := none }
  | some vitalsData =>
    -- Step 2: unwrap the optional envelope.
    let vitals := unwrapSample vitalsData
    -- Step 3: schema validation of the pre-unwrap value.
    if !validate vitalsData then
      { acked := true, nakDelay := none, received := 1, validated := 0
        alerts_published := 0, dropped_invalid := 1
        dropped_publish_fail := 0
        validatedOn := some vitalsData, evaluatedOn := none }
    else
      -- Step 4: evaluate with the rules engine.
      let alertResult := evalFn vitals
      if !alertResult.shouldAlert then
        { acked := true, nakDelay := none, received := 1, validated := 1
          alerts_published := 0, dropped_invalid := 0
          dropped_publish_fail := 0
          validatedOn := some vitalsData, evaluatedOn := some vitals }
      else
        -- Step 5: publish the alert, then ACK or NAK(2000).
        let published := publishAlert outboundValid transportOk
        if published then
          { acked := true, nakDelay := none, received := 1, validated := 1
            alerts_published := 1, dropped_invalid := 0
            dropped_publish_fail := 0
            validatedOn := some vitalsData, evaluatedOn := some vitals }
        else
          { acked := false, nakDelay := some 2000, received := 1
            validated := 1, alerts_published := 0, dropped_invalid := 0
            dropped_publish_fail := 1
            validatedOn := some vitalsData, evaluatedOn := some vitals }

/- ===== VitalsConsumer.start (consumer.ts lines 26-70) ===== -/

/-- The error object caught by `start`'s retry loop: `err?.code ?? ''`
and `err?.message ?? ''`. -/
structure ErrInfo where
  code : String
  message : String
deriving DecidableEq, Repr

/-- Whether the character list starts with the pattern. -/
def charsStartWith : List Char → List Char → Bool
  | _, [] => true
  | [], _ :: _ => false
  | a :: as, b :: bs => a == b && charsStartWith as bs

/-- Whether the pattern occurs contiguously in the character list. -/
def charsContain : List Char → List Char → Bool
  | [], pat => pat.isEmpty
  | a :: rest, pat => charsStartWith (a :: rest) pat || charsContain rest pat

/-- JS `String.prototype.includes`: the empty string is contained in
everything; otherwise containment is occurrence as a contiguous
substring. -/
def includesStr (s sub : String) : Bool :=
  charsContain s.data sub.data

/-- The retryability classification of consumer.ts lines 50-54. -/
def isRetryable (e : ErrInfo) : Bool :=
  e.code == "503" ||
  includesStr e.message "stream not found" ||
  includesStr e.message "unavailable" ||
  includesStr e.message "consumer not found"

/-- Observable behaviour of one `start()` run: how many attempts at
`connectAndConsume` were made, the `setTimeout` delays taken between
them, and the final outcome (`.ok` when an attempt returned, `.error e`
when the loop threw `e`). -/
structure StartTrace where
  attemptsMade : Nat
  delays : List Nat
  result : Except ErrInfo Unit
deriving Repr

/-- The retry loop of `start` (consumer.ts lines 43-69).  `outcome n` is
what the nth (1-based) `connectAndConsume` attempt does.  `fuel` is the
number of loop iterations still permitted (`maxRetries - attempt + 1`);
the `fuel = 0` case corresponds to falling off the loop and rethrowing
the last error, which cannot happen when the loop is entered with
`fuel = maxRetries ≥ 1`. -/
def startLoop (outcome : Nat → Except ErrInfo Unit) (maxRetries : Nat) :
    (attempt : Nat) → (fuel : Nat) → StartTrace
  | _, 0 =>
    { attemptsMade := 0, delays := []
      result := .error { code := "", message := "retry loop exhausted" } }
  | attempt, fuel + 1 =>
    match outcome attempt with
    | .ok _ => { attemptsMade := 1, delays := [], result := .ok () }
    | .error e =>
      if isRetryable e && attempt < maxRetries then
        let rest := startLoop outcome maxRetries (attempt + 1) fuel
        { attemptsMade := rest.attemptsMade + 1
          delays := 2000 :: rest.delays
          result := rest.result }
      else
        { attemptsMade := 1, delays := [], result := .error e }

/-- Method `VitalsConsumer.start` (consumer.ts lines 26-70): the retry loop with
`maxRetries = 30` and `baseDelayMs = 2000`, starting at attempt 1. -/
def start (outcome : Nat → Except ErrInfo Unit) : StartTrace :=
  startLoop outcome 30 1 30

/- ===== RulesEngine.cleanupStaleStates (engine.ts lines 213-231) ===== -/

/-- Method `RulesEngine.cleanupStaleStates`: the patient-state map as an
association list.  The source first collects the ids of entries with
`now - lastUpdated > ttl`, then deletes exactly those ids from the
map. -/
def cleanupStaleStates (states : List (String × PatientState))
    (now ttl : Int) : List (String × PatientState) :=
  let stalePatients :=
    (states.filter (fun p => decide (now - p.2.lastUpdated > ttl))).map
      (fun p => p.1)
  states.filter (fun p => !stalePatients.contains p.1)

/- ===== Concrete inputs used by witnesses and counterexamples ===== -/

/-- Whether a kind's check block reaches `persist_samples` on this
sample (the guard of its `reasons.push`). -/
def kindEmit (rules : RulesConfig) (vitals : VitalsData) (v : Violations)
    (k : VKind) : Bool :=
  (checkRule (kindThr rules k) (kindDir k) (kindPersist rules k)
    (kindValue vitals k) (kindCount v k)).2

/-- Scenario A rule set: heart-rate high threshold 120, persist 2. -/
def rulesA : RulesConfig :=
  { heart_rate := some
      { high_threshold := some 120, low_threshold := none
        persist_samples := some 2 }
    spo2 := none }

/-- Scenario A sample: heart rate 130. -/
def sampleHr130 : VitalsData :=
  { patient_id := "P1", heart_rate := 130, oxygen_saturation := 98
    timestamp := "2026-01-01T00:00:00Z" }

/-- A rule set with both heart-rate-high and SpO2-low single-sample
rules, used to exercise multi-reason decisions. -/
def rulesB : RulesConfig :=
  { heart_rate := some
      { high_threshold := some 120, low_threshold := none
        persist_samples := some 1 }
    spo2 := some
      { high_threshold := none, low_threshold := some 90
        persist_samples := some 1 } }

/-- A sample violating both rules of `rulesB`. -/
def sampleBoth : VitalsData :=
  { patient_id := "P2", heart_rate := 130, oxygen_saturation := 80
    timestamp := "2026-01-01T00:00:01Z" }

/-- The evaluation the consumer performs for a fresh entity under
`rulesB`, as a plain function of the sample. -/
def evalFreshB (v : VitalsData) : AlertResult :=
  (evaluate rulesB v (freshPatientState v.patient_id 0) 0).1

/-- A parsed message that is a bare (non-enveloped) sample. -/
def parsedBoth : ParsedValue :=
  { payload := none, topValue := sampleBoth }

/-- A sample with a normal heart rate (violates nothing in `rulesA`). -/
def sampleNormal : VitalsData :=
  { patient_id := "P1", heart_rate := 75, oxygen_saturation := 98
    timestamp := "2026-01-01T00:00:02Z" }

/-- A retryable startup error: JetStream answering 503. -/
def err503 : ErrInfo :=
  { code := "503", message := "jetstream unavailable" }

/-- A permanent startup error: nothing in the retryable classification
matches. -/
def errAuth : ErrInfo :=
  { code := "401", message := "authorization violation" }

/-- A recently-updated patient state for the sweep witness. -/
def stateFreshA : PatientState :=
  { patientId := "A", violations := {}, lastUpdated := 95 }

/-- A long-idle patient state for the sweep witness. -/
def stateStaleB : PatientState :=
  { patientId := "B"
    violations := { heart_rate_high := 1, heart_rate_low := 0, spo2_low := 0 }
    lastUpdated := 0 }

/-- A two-entity state map for the sweep witness. -/
def demoStates : List (String × PatientState) :=
  [("A", stateFreshA), ("B", stateStaleB)]

/- ===================== Theorems ===================== -/

/- Helper lemmas about the rules engine. -/

theorem evaluate_snd (rules : RulesConfig) (vitals : VitalsData)
    (state : PatientState) (now : Int) :
    (evaluate rules vitals state now).2 =
      { patientId := state.patientId
        violations := evalViolations rules vitals state.violations
        lastUpdated := now } := by
  unfold evaluate
  split <;> rfl

theorem evaluate_fst_empty {rules : RulesConfig} {vitals : VitalsData}
    {state : PatientState} (now : Int)
    (h : evalReasons rules vitals state.violations = []) :
    (evaluate rules vitals state now).1 = { shouldAlert := false } := by
  unfold evaluate
  simp [h]

theorem evaluate_fst_nonempty {rules : RulesConfig} {vitals : VitalsData}
    {state : PatientState} (now : Int)
    (h : evalReasons rules vitals state.violations ≠ []) :
    (evaluate rules vitals state now).1 =
      { shouldAlert := true
        severity := some
          (calculateSeverity (evalReasons rules vitals state.violations)
            vitals)
        reasons := some (evalReasons rules vitals state.violations)
        suggestedAction := some
          (getSuggestedAction (evalReasons rules vitals state.violations)
            vitals) } := by
  unfold evaluate
  simp [h]

theorem resultCodes_evaluate (rules : RulesConfig) (vitals : VitalsData)
    (state : PatientState) (now : Int) :
    resultCodes (evaluate rules vitals state now).1 =
      (evalReasons rules vitals state.violations).map (fun r => r.code) := by
  rcases eq_or_ne (evalReasons rules vitals state.violations) [] with h | h
  · rw [evaluate_fst_empty now h, h]
    rfl
  · rw [evaluate_fst_nonempty now h]
    rfl

theorem evaluate_codes_shouldAlert {rules : RulesConfig}
    {vitals : VitalsData} {state : PatientState} (now : Int)
    (h : resultCodes (evaluate rules vitals state now).1 ≠ []) :
    (evaluate rules vitals state now).1.shouldAlert = true := by
  rcases eq_or_ne (evalReasons rules vitals state.violations) [] with he | he
  · rw [resultCodes_evaluate, he] at h
    simp at h
  · rw [evaluate_fst_nonempty now he]

/-- C8: with the rule `{heart_rate: {high_threshold: 120,
persist_samples: 2}}` and two consecutive samples with heart rate 130
for one entity, the first `evaluate` returns no alert and the second
returns an alert with exactly one reason, code `HEART_RATE_HIGH`, and
severity `low` (130 exceeds 120 but not the strict medium cutoff
`> 130`). -/
theorem evaluate_scenarioA :
    (evaluate rulesA sampleHr130 (freshPatientState "P1" 0) 0).1.shouldAlert
      = false ∧
    (evaluate rulesA sampleHr130
      (evaluate rulesA sampleHr130 (freshPatientState "P1" 0) 0).2
      0).1.shouldAlert = true ∧
    resultCodes (evaluate rulesA sampleHr130
      (evaluate rulesA sampleHr130 (freshPatientState "P1" 0) 0).2 0).1
      = ["HEART_RATE_HIGH"] ∧
    ((evaluate rulesA sampleHr130
      (evaluate rulesA sampleHr130 (freshPatientState "P1" 0) 0).2
      0).1.reasons.getD []).length = 1 ∧
    (evaluate rulesA sampleHr130
      (evaluate rulesA sampleHr130 (freshPatientState "P1" 0) 0).2
      0).1.severity = some Severity.low := by
  decide

/-- C2: whenever `evaluate` produces two or more reasons, the decision's
severity is `high` regardless of the individual magnitudes, and the
suggested action is the generic multiple-violation escalation message. -/
theorem evaluate_multi_reason_high (rules : RulesConfig)
    (vitals : VitalsData) (state : PatientState) (now : Int)
    (rs : List AlertReason)
    (hrs : (evaluate rules vitals state now).1.reasons = some rs)
    (hlen : 2 ≤ rs.length) :
    (evaluate rules vitals state now).1.severity = some Severity.high ∧
    (evaluate rules vitals state now).1.suggestedAction = some
      "Immediate medical attention required. Multiple vital signs abnormal." := by
  rcases eq_or_ne (evalReasons rules vitals state.violations) [] with h | h
  · rw [evaluate_fst_empty now h] at hrs
    simp at hrs
  · rw [evaluate_fst_nonempty now h] at hrs ⊢
    have hr2 := Option.some.inj hrs
    subst hr2
    refine ⟨?_, ?_⟩
    · simp only [calculateSeverity, ge_iff_le, hlen, if_pos]
    · simp only [getSuggestedAction, List.length_map, ge_iff_le, hlen,
        if_pos]

/-- C2 witness: a fresh entity violating both single-sample rules of
`rulesB` yields a two-reason decision with severity `high` and the
generic escalation action. -/
theorem evaluate_multi_reason_high_witness :
    (evaluate rulesB sampleBoth (freshPatientState "P2" 0) 0).1.severity
      = some Severity.high ∧
    (evaluate rulesB sampleBoth
      (freshPatientState "P2" 0) 0).1.suggestedAction = some
      "Immediate medical attention required. Multiple vital signs abnormal." :=
  evaluate_multi_reason_high rulesB sampleBoth (freshPatientState "P2" 0) 0
    [hrHighReason rulesB sampleBoth, spo2Reason rulesB sampleBoth]
    (by decide) (by decide)

/-- C10: an `evaluate` result with `shouldAlert = true` always carries a
defined severity, a non-empty reasons list and a defined suggested
action (so the consumer's non-null assertions at the publish call site
never dereference an absent field), while a `shouldAlert = false` result
carries none of these fields. -/
theorem evaluate_result_shape (rules : RulesConfig) (vitals : VitalsData)
    (state : PatientState) (now : Int) :
    ((evaluate rules vitals state now).1.shouldAlert = true →
      (evaluate rules vitals state now).1.severity.isSome = true ∧
      (∃ rs, (evaluate rules vitals state now).1.reasons = some rs ∧
        rs ≠ []) ∧
      (evaluate rules vitals state now).1.suggestedAction.isSome = true) ∧
    ((evaluate rules vitals state now).1.shouldAlert = false →
      (evaluate rules vitals state now).1.severity = none ∧
      (evaluate rules vitals state now).1.reasons = none ∧
      (evaluate rules vitals state now).1.suggestedAction = none) := by
  rcases eq_or_ne (evalReasons rules vitals state.violations) [] with h | h
  · rw [evaluate_fst_empty now h]
    simp
  · rw [evaluate_fst_nonempty now h]
    simp [h]

/-- C10 witness: on a concrete alerting evaluation the severity field is
present. -/
theorem evaluate_result_shape_witness :
    (evaluate rulesB sampleBoth
      (freshPatientState "P2" 0) 0).1.severity.isSome = true :=
  ((evaluate_result_shape rulesB sampleBoth (freshPatientState "P2" 0)
    0).1 (by decide)).1

/-- C3: a delivered message whose JSON parsing throws, or whose parsed
value fails schema validation, is acknowledged (never
negatively-acknowledged), increments `dropped_invalid` by exactly 1,
never reaches the rules engine's `evaluate`, and leaves `validated` and
`alerts_published` unchanged. -/
theorem handleMessage_invalid_dropped (pr : Option ParsedValue)
    (validate : ParsedValue → Bool) (evalFn : VitalsData → AlertResult)
    (outboundValid transportOk : Bool)
    (h : pr = none ∨ ∃ pv, pr = some pv ∧ validate pv = false) :
    (handleMessage pr validate evalFn outboundValid transportOk).acked
      = true ∧
    (handleMessage pr validate evalFn outboundValid transportOk).nakDelay
      = none ∧
    (handleMessage pr validate evalFn outboundValid
      transportOk).dropped_invalid = 1 ∧
    (handleMessage pr validate evalFn outboundValid
      transportOk).evaluatedOn = none ∧
    (handleMessage pr validate evalFn outboundValid transportOk).validated
      = 0 ∧
    (handleMessage pr validate evalFn outboundValid
      transportOk).alerts_published = 0 := by
  rcases h with h | ⟨pv, hpv, hval⟩
  · subst h
    simp [handleMessage]
  · subst hpv
    simp [handleMessage, hval]

/-- C3 witness: an unparseable payload is acknowledged and counted as
dropped, with no evaluation. -/
theorem handleMessage_invalid_dropped_witness :
    (handleMessage none (fun _ => true) evalFreshB true true).acked
      = true ∧
    (handleMessage none (fun _ => true) evalFreshB true true).nakDelay
      = none ∧
    (handleMessage none (fun _ => true) evalFreshB true
      true).dropped_invalid = 1 ∧
    (handleMessage none (fun _ => true) evalFreshB true true).evaluatedOn
      = none ∧
    (handleMessage none (fun _ => true) evalFreshB true true).validated
      = 0 ∧
    (handleMessage none (fun _ => true) evalFreshB true
      true).alerts_published = 0 :=
  handleMessage_invalid_dropped none (fun _ => true) evalFreshB true true
    (Or.inl rfl)

/-- C4: for a validated message whose evaluation warrants an alert, a
`publishAlert` returning `false` leads to a negative acknowledgement
with a 2000 ms delay, `dropped_publish_fail` incremented and
`alerts_published` untouched, while a `publishAlert` returning `true`
leads to an acknowledgement and `alerts_published` incremented. -/
theorem handleMessage_publish_outcome (pv : ParsedValue)
    (validate : ParsedValue → Bool) (evalFn : VitalsData → AlertResult)
    (outboundValid transportOk : Bool)
    (hval : validate pv = true)
    (halert : (evalFn (unwrapSample pv)).shouldAlert = true) :
    (publishAlert outboundValid transportOk = false →
      (handleMessage (some pv) validate evalFn outboundValid
        transportOk).nakDelay = some 2000 ∧
      (handleMessage (some pv) validate evalFn outboundValid
        transportOk).acked = false ∧
      (handleMessage (some pv) validate evalFn outboundValid
        transportOk).dropped_publish_fail = 1 ∧
      (handleMessage (some pv) validate evalFn outboundValid
        transportOk).alerts_published = 0) ∧
    (publishAlert outboundValid transportOk = true →
      (handleMessage (some pv) validate evalFn outboundValid
        transportOk).acked = true ∧
      (handleMessage (some pv) validate evalFn outboundValid
        transportOk).nakDelay = none ∧
      (handleMessage (some pv) validate evalFn outboundValid
        transportOk).alerts_published = 1 ∧
      (handleMessage (some pv) validate evalFn outboundValid
        transportOk).dropped_publish_fail = 0) := by
  rcases Bool.eq_false_or_eq_true
      (publishAlert outboundValid transportOk) with hp | hp <;>
    constructor <;> intro hp2 <;>
      simp [hp] at hp2 ⊢ <;>
        simp [handleMessage, hval, halert, hp]

/-- C4 witness: a transport failure on a concrete alerting message naks
with delay 2000 and records the publish failure. -/
theorem handleMessage_publish_outcome_witness :
    (handleMessage (some parsedBoth) (fun _ => true) evalFreshB true
      false).nakDelay = some 2000 ∧
    (handleMessage (some parsedBoth) (fun _ => true) evalFreshB true
      false).acked = false ∧
    (handleMessage (some parsedBoth) (fun _ => true) evalFreshB true
      false).dropped_publish_fail = 1 ∧
    (handleMessage (some parsedBoth) (fun _ => true) evalFreshB true
      false).alerts_published = 0 :=
  (handleMessage_publish_outcome parsedBoth (fun _ => true) evalFreshB
    true false rfl (by decide)).1 (by decide)

/-- C5 counterexample: a triggered alert whose constructed event fails
outbound schema validation (outboundValid = false, with the transport
otherwise healthy) IS negatively-acknowledged with a 2000 ms redelivery
delay, contradicting the claim that the originating message is not
retried. -/
theorem handleMessage_outbound_invalid_counterexample :
    (handleMessage (some parsedBoth) (fun _ => true) evalFreshB false
      true).nakDelay = some 2000 ∧
    (handleMessage (some parsedBoth) (fun _ => true) evalFreshB false
      true).acked = false := by
  decide

/-- C5 (amended): when the constructed AlertEvent fails outbound schema
validation, `publishAlert` returns `false` without publishing, and the
consumer treats this exactly like a publish failure: the originating
message is negatively-acknowledged with a 2000 ms delay (redelivery
requested), `dropped_publish_fail` is incremented, and the alert is not
counted as published. -/
theorem handleMessage_outbound_invalid (pv : ParsedValue)
    (validate : ParsedValue → Bool) (evalFn : VitalsData → AlertResult)
    (transportOk : Bool)
    (hval : validate pv = true)
    (halert : (evalFn (unwrapSample pv)).shouldAlert = true) :
    publishAlert false transportOk = false ∧
    (handleMessage (some pv) validate evalFn false transportOk).nakDelay
      = some 2000 ∧
    (handleMessage (some pv) validate evalFn false transportOk).acked
      = false ∧
    (handleMessage (some pv) validate evalFn false
      transportOk).dropped_publish_fail = 1 ∧
    (handleMessage (some pv) validate evalFn false
      transportOk).alerts_published = 0 := by
  refine ⟨rfl, ?_⟩
  simp [handleMessage, hval, halert, publishAlert]

/-- C5 witness for the amended statement, at a concrete alerting
message. -/
theorem handleMessage_outbound_invalid_witness :
    publishAlert false true = false ∧
    (handleMessage (some parsedBoth) (fun _ => true) evalFreshB false
      true).nakDelay = some 2000 ∧
    (handleMessage (some parsedBoth) (fun _ => true) evalFreshB false
      true).acked = false ∧
    (handleMessage (some parsedBoth) (fun _ => true) evalFreshB false
      true).dropped_publish_fail = 1 ∧
    (handleMessage (some parsedBoth) (fun _ => true) evalFreshB false
      true).alerts_published = 0 :=
  handleMessage_outbound_invalid parsedBoth (fun _ => true) evalFreshB
    true rfl (by decide)

/-- C9: schema validation is applied to the pre-unwrap parsed value, and
the sample handed to evaluation is the nested payload field when the
parsed value carries one, and the parsed value itself otherwise. -/
theorem handleMessage_unwrap (pv : ParsedValue)
    (validate : ParsedValue → Bool) (evalFn : VitalsData → AlertResult)
    (outboundValid transportOk : Bool) :
    (handleMessage (some pv) validate evalFn outboundValid
      transportOk).validatedOn = some pv ∧
    (validate pv = true →
      (handleMessage (some pv) validate evalFn outboundValid
        transportOk).evaluatedOn = some (unwrapSample pv)) ∧
    (∀ p, pv.payload = some p → unwrapSample pv = p) ∧
    (pv.payload = none → unwrapSample pv = pv.topValue) := by
  refine ⟨?_, ?_, ?_, ?_⟩
  · by_cases hv : validate pv = true
    · by_cases ha : (evalFn (unwrapSample pv)).shouldAlert = true
      · by_cases hp : publishAlert outboundValid transportOk = true <;>
          simp [handleMessage, hv, ha, hp]
      · simp [handleMessage, hv, Bool.not_eq_true] at ha ⊢
        simp [ha]
    · simp [Bool.not_eq_true] at hv
      simp [handleMessage, hv]
  · intro hv
    by_cases ha : (evalFn (unwrapSample pv)).shouldAlert = true
    · by_cases hp : publishAlert outboundValid transportOk = true <;>
        simp [handleMessage, hv, ha, hp]
    · simp [Bool.not_eq_true] at ha
      simp [handleMessage, hv, ha]
  · intro p hp
    simp [unwrapSample, hp]
  · intro hp
    simp [unwrapSample, hp]

/-- C9 witness: a concrete validated bare-sample message is evaluated on
the parsed value itself. -/
theorem handleMessage_unwrap_witness :
    (handleMessage (some parsedBoth) (fun _ => true) evalFreshB true
      true).evaluatedOn = some (unwrapSample parsedBoth) :=
  (handleMessage_unwrap parsedBoth (fun _ => true) evalFreshB true
    true).2.1 rfl

/- Helper lemma for the startup retry loop: behaviour of `startLoop`
from any attempt index, by induction on the remaining fuel. -/

theorem startLoop_spec (outcome : Nat → Except ErrInfo Unit) (mr : Nat) :
    ∀ (fuel attempt : Nat), 1 ≤ fuel → attempt + fuel = mr + 1 →
      1 ≤ (startLoop outcome mr attempt fuel).attemptsMade ∧
      (startLoop outcome mr attempt fuel).attemptsMade ≤ fuel ∧
      (startLoop outcome mr attempt fuel).result =
        outcome (attempt + (startLoop outcome mr attempt fuel).attemptsMade
          - 1) ∧
      (startLoop outcome mr attempt fuel).delays = List.replicate
        ((startLoop outcome mr attempt fuel).attemptsMade - 1) 2000 ∧
      (∀ j, j + 1 < (startLoop outcome mr attempt fuel).attemptsMade →
        ∃ e, outcome (attempt + j) = .error e ∧ isRetryable e = true) ∧
      (∀ e, (startLoop outcome mr attempt fuel).result = .error e →
        isRetryable e = true →
        attempt + (startLoop outcome mr attempt fuel).attemptsMade - 1
          = mr) := by
  intro fuel
  induction fuel with
  | zero =>
    intro attempt h1 h2
    omega
  | succ f ih =>
    intro attempt h1 h2
    cases ho : outcome attempt with
    | ok u =>
      cases u
      have hs : startLoop outcome mr attempt (f + 1) =
          { attemptsMade := 1, delays := [], result := .ok () } := by
        simp [startLoop, ho]
      rw [hs]
      dsimp only
      refine ⟨le_refl 1, by omega, ?_, rfl, ?_, ?_⟩
      · simp [ho]
      · intro j hj
        omega
      · intro e' he'
        simp at he'
    | error e =>
      by_cases hcond : isRetryable e = true ∧ attempt < mr
      · obtain ⟨hre, hlt⟩ := hcond
        have hf : 1 ≤ f := by omega
        have h2' : (attempt + 1) + f = mr + 1 := by omega
        obtain ⟨ih1, ih2, ih3, ih4, ih5, ih6⟩ := ih (attempt + 1) hf h2'
        have hs : startLoop outcome mr attempt (f + 1) =
            { attemptsMade :=
                (startLoop outcome mr (attempt + 1) f).attemptsMade + 1
              delays :=
                2000 :: (startLoop outcome mr (attempt + 1) f).delays
              result := (startLoop outcome mr (attempt + 1) f).result } := by
          simp [startLoop, ho, hre, hlt]
        rw [hs]
        dsimp only
        refine ⟨by omega, by omega, ?_, ?_, ?_, ?_⟩
        · rw [ih3]
          congr 1
          omega
        · rw [ih4]
          have hn : (startLoop outcome mr (attempt + 1) f).attemptsMade + 1
              - 1 = ((startLoop outcome mr (attempt + 1) f).attemptsMade
              - 1) + 1 := by omega
          rw [hn, List.replicate_succ]
        · intro j hj
          cases j with
          | zero => exact ⟨e, by simpa using ho, hre⟩
          | succ n =>
            obtain ⟨e', he', hre'⟩ := ih5 n (by omega)
            refine ⟨e', ?_, hre'⟩
            rw [show attempt + (n + 1) = (attempt + 1) + n by omega]
            exact he'
        · intro e' he' hre'
          have := ih6 e' he' hre'
          omega
      · have hb : (isRetryable e && decide (attempt < mr)) = false := by
          cases h : isRetryable e
          · rw [Bool.false_and]
          · rw [Bool.true_and, decide_eq_false_iff_not]
            exact fun hlt => hcond ⟨h, hlt⟩
        have hs : startLoop outcome mr attempt (f + 1) =
            { attemptsMade := 1, delays := [], result := .error e } := by
          simp [startLoop, ho, hb]
        rw [hs]
        dsimp only
        refine ⟨le_refl 1, by omega, ?_, rfl, ?_, ?_⟩
        · simp [ho]
        · intro j hj
          omega
        · intro e' he' hre'
          have hee : e = e' := by
            simpa using he'
          subst hee
          have hnlt : ¬ attempt < mr := fun hlt => hcond ⟨hre', hlt⟩
          omega

/-- C7: `start()` makes at most 30 attempts at connect-and-consume;
every attempt before the last failed with an error classified retryable
and was followed by a fixed 2000 ms wait; the final outcome is exactly
the last attempt's outcome; and a retryable error is propagated as the
failure only when it occurred on the 30th attempt (any non-retryable
error propagates immediately). -/
theorem start_retry_spec (outcome : Nat → Except ErrInfo Unit) :
    1 ≤ (start outcome).attemptsMade ∧
    (start outcome).attemptsMade ≤ 30 ∧
    (start outcome).result = outcome (start outcome).attemptsMade ∧
    (start outcome).delays =
      List.replicate ((start outcome).attemptsMade - 1) 2000 ∧
    (∀ i, 1 ≤ i → i < (start outcome).attemptsMade →
      ∃ e, outcome i = .error e ∧ isRetryable e = true) ∧
    (∀ e, (start outcome).result = .error e → isRetryable e = true →
      (start outcome).attemptsMade = 30) := by
  obtain ⟨h1, h2, h3, h4, h5, h6⟩ :=
    startLoop_spec outcome 30 30 1 (by omega) (by omega)
  have hstart : start outcome = startLoop outcome 30 1 30 := rfl
  rw [hstart]
  refine ⟨h1, h2, ?_, h4, ?_, ?_⟩
  · rw [h3]
    congr 1
    omega
  · intro i hi1 hi2
    obtain ⟨e, he, hre⟩ := h5 (i - 1) (by omega)
    refine ⟨e, ?_, hre⟩
    rw [show i = 1 + (i - 1) by omega]
    exact he
  · intro e he hre
    have := h6 e he hre
    omega

/-- C7 witness: with every attempt failing retryably (JetStream 503),
`start` makes exactly its bounded 30 attempts with a 2000 ms delay after
each of the first 29. -/
theorem start_retry_spec_witness :
    (start (fun _ => Except.error err503)).attemptsMade ≤ 30 :=
  (start_retry_spec (fun _ => Except.error err503)).2.1

/- Helper: in a map with no duplicate keys, a key determines its value. -/

theorem nodupKeys_value_eq :
    ∀ (l : List (String × PatientState)),
      (l.map Prod.fst).Nodup →
      ∀ (id : String) (s1 s2 : PatientState),
        (id, s1) ∈ l → (id, s2) ∈ l → s1 = s2 := by
  intro l
  induction l with
  | nil =>
    intro _ id s1 s2 h1 h2
    simp at h1
  | cons p rest ih =>
    intro hnd id s1 s2 h1 h2
    rw [List.map_cons, List.nodup_cons] at hnd
    obtain ⟨hp, hrest⟩ := hnd
    rcases List.mem_cons.mp h1 with h1 | h1 <;>
      rcases List.mem_cons.mp h2 with h2 | h2
    · rw [← h2] at h1
      exact congrArg Prod.snd h1
    · exfalso
      apply hp
      rw [show p.1 = id from (congrArg Prod.fst h1).symm]
      exact List.mem_map.mpr ⟨(id, s2), h2, rfl⟩
    · exfalso
      apply hp
      rw [show p.1 = id from (congrArg Prod.fst h2).symm]
      exact List.mem_map.mpr ⟨(id, s1), h1, rfl⟩
    · exact ih hrest id s1 s2 h1 h2

/-- C6: a sweep at time `now` with TTL `ttl` retains exactly the tracked
entities with `now - last_updated ≤ ttl` and removes exactly those with
`now - last_updated > ttl`; retained entries are unchanged (the result
is a sublist of the original map). -/
theorem cleanupStaleStates_spec (states : List (String × PatientState))
    (now ttl : Int) (hkeys : (states.map Prod.fst).Nodup) :
    (∀ id st, (id, st) ∈ cleanupStaleStates states now ttl ↔
      (id, st) ∈ states ∧ now - st.lastUpdated ≤ ttl) ∧
    (cleanupStaleStates states now ttl).Sublist states := by
  constructor
  · intro id st
    unfold cleanupStaleStates
    rw [List.mem_filter]
    constructor
    · rintro ⟨hmem, hcond⟩
      refine ⟨hmem, ?_⟩
      by_contra hgt
      rw [not_le] at hgt
      have hstale : id ∈ (states.filter
          (fun p => decide (now - p.2.lastUpdated > ttl))).map
            (fun p => p.1) :=
        List.mem_map.mpr ⟨(id, st),
          List.mem_filter.mpr ⟨hmem, by simpa using hgt⟩, rfl⟩
      have hnot : id ∉ (states.filter
          (fun p => decide (now - p.2.lastUpdated > ttl))).map
            (fun p => p.1) := by
        simpa using hcond
      exact hnot hstale
    · rintro ⟨hmem, hle⟩
      refine ⟨hmem, ?_⟩
      suffices hns : id ∉ (states.filter
          (fun p => decide (now - p.2.lastUpdated > ttl))).map
            (fun p => p.1) by
        simpa using hns
      intro hid
      rw [List.mem_map] at hid
      obtain ⟨p, hpmem, hpfst⟩ := hid
      rw [List.mem_filter] at hpmem
      obtain ⟨hpstates, hpstale⟩ := hpmem
      have hpeq : p = (id, p.2) := by
        rw [← hpfst]
      rw [hpeq] at hpstates
      have := nodupKeys_value_eq states hkeys id p.2 st hpstates hmem
      rw [this] at hpstale
      simp at hpstale
      omega
  · unfold cleanupStaleStates
    exact List.filter_sublist states

/-- C6 witness: in a concrete two-entity map swept at `now = 100` with
`ttl = 10`, the recently-updated entity is retained unchanged. -/
theorem cleanupStaleStates_spec_witness :
    ("A", stateFreshA) ∈ cleanupStaleStates demoStates 100 10 :=
  ((cleanupStaleStates_spec demoStates 100 10 (by decide)).1 "A"
    stateFreshA).mpr ⟨by decide, by decide⟩

/- Helper lemmas for the persistence/streak claim. -/

theorem persistSamplesOf_pos (r : ThresholdRule) :
    1 ≤ persistSamplesOf r := by
  unfold persistSamplesOf
  cases hps : r.persist_samples with
  | none => exact le_refl 1
  | some p =>
    dsimp only
    split
    · exact le_refl 1
    · omega

theorem hrPersist_pos (rules : RulesConfig) : 1 ≤ hrPersist rules := by
  unfold hrPersist
  cases rules.heart_rate with
  | none => exact le_refl 1
  | some r => exact persistSamplesOf_pos r

theorem spo2Persist_pos (rules : RulesConfig) : 1 ≤ spo2Persist rules := by
  unfold spo2Persist
  cases rules.spo2 with
  | none => exact le_refl 1
  | some r => exact persistSamplesOf_pos r

theorem kindPersist_pos (rules : RulesConfig) (k : VKind) :
    1 ≤ kindPersist rules k := by
  cases k with
  | hrHigh => exact hrPersist_pos rules
  | hrLow => exact hrPersist_pos rules
  | spo2Low => exact spo2Persist_pos rules

theorem kindCount_evalViolations (rules : RulesConfig)
    (vitals : VitalsData) (v : Violations) (k : VKind) :
    kindCount (evalViolations rules vitals v) k =
      (checkRule (kindThr rules k) (kindDir k) (kindPersist rules k)
        (kindValue vitals k) (kindCount v k)).1 := by
  cases k <;> rfl

theorem evalReasons_codes (rules : RulesConfig) (vitals : VitalsData)
    (v : Violations) :
    (evalReasons rules vitals v).map (fun r => r.code) =
      (if (checkRule (hrHighThr rules) .gtDir (hrPersist rules)
          vitals.heart_rate v.heart_rate_high).2 then
        ["HEART_RATE_HIGH"] else []) ++
      (if (checkRule (hrLowThr rules) .ltDir (hrPersist rules)
          vitals.heart_rate v.heart_rate_low).2 then
        ["HEART_RATE_LOW"] else []) ++
      (if (checkRule (spo2LowThr rules) .ltDir (spo2Persist rules)
          vitals.oxygen_saturation v.spo2_low).2 then
        ["SPO2_LOW"] else []) := by
  unfold evalReasons
  split <;> split <;> split <;> rfl

theorem kindCode_mem_evalReasons (rules : RulesConfig)
    (vitals : VitalsData) (v : Violations) (k : VKind) :
    (kindCode k ∈ (evalReasons rules vitals v).map (fun r => r.code)) ↔
      kindEmit rules vitals v k = true := by
  cases k <;>
    rw [evalReasons_codes] <;>
    simp only [kindEmit, kindThr, kindDir, kindPersist, kindValue,
      kindCount, kindCode] <;>
    split <;> split <;> split <;> simp_all

theorem evaluate_kindCount (rules : RulesConfig) (vitals : VitalsData)
    (state : PatientState) (now : Int) (k : VKind) (t : Int)
    (hk : kindThr rules k = some t) :
    kindCount (evaluate rules vitals state now).2.violations k =
      updateViolationCount (kindCount state.violations k)
        (kindViolating rules k vitals) := by
  have h2 : (evaluate rules vitals state now).2.violations =
      evalViolations rules vitals state.violations := by
    rw [evaluate_snd]
  rw [h2, kindCount_evalViolations, hk]
  unfold kindViolating
  rw [hk]
  simp [checkRule]

theorem evaluate_kindCode_mem (rules : RulesConfig) (vitals : VitalsData)
    (state : PatientState) (now : Int) (k : VKind) (t : Int)
    (hk : kindThr rules k = some t) :
    (kindCode k ∈ resultCodes (evaluate rules vitals state now).1 ↔
      kindPersist rules k ≤
        kindCount (evaluate rules vitals state now).2.violations k) := by
  rw [resultCodes_evaluate, kindCode_mem_evalReasons]
  have h2 : (evaluate rules vitals state now).2.violations =
      evalViolations rules vitals state.violations := by
    rw [evaluate_snd]
  rw [h2, kindCount_evalViolations]
  unfold kindEmit
  rw [hk]
  simp [checkRule]

theorem runEval_cons (rules : RulesConfig) (state : PatientState)
    (now : Int) (v : VitalsData) (vs : List VitalsData) :
    runEval rules state now (v :: vs) =
      ((evaluate rules v state now).1 ::
        (runEval rules (evaluate rules v state now).2 now vs).1,
       (runEval rules (evaluate rules v state now).2 now vs).2) := rfl

theorem runEval_shouldAlert (rules : RulesConfig) (now : Int) :
    ∀ (samples : List VitalsData) (state : PatientState)
      (r : AlertResult),
      r ∈ (runEval rules state now samples).1 → resultCodes r ≠ [] →
      r.shouldAlert = true := by
  intro samples
  induction samples with
  | nil =>
    intro state r hr
    simp [runEval] at hr
  | cons v vs ih =>
    intro state r hr hne
    rw [runEval_cons] at hr
    dsimp only at hr
    rcases List.mem_cons.mp hr with h | h
    · subst h
      exact evaluate_codes_shouldAlert now hne
    · exact ih (evaluate rules v state now).2 r h hne

theorem runEval_violating (rules : RulesConfig) (k : VKind) (t : Int)
    (hk : kindThr rules k = some t) (now : Int) :
    ∀ (samples : List VitalsData) (state : PatientState),
      (∀ v ∈ samples, kindViolating rules k v = true) →
      (runEval rules state now samples).1.length = samples.length ∧
      kindCount (runEval rules state now samples).2.violations k =
        kindCount state.violations k + samples.length ∧
      (∀ i r, (runEval rules state now samples).1.get? i = some r →
        (kindCode k ∈ resultCodes r ↔
          kindPersist rules k ≤
            kindCount state.violations k + (i + 1))) := by
  intro samples
  induction samples with
  | nil =>
    intro state hv
    refine ⟨rfl, by simp [runEval], ?_⟩
    intro i r hr
    simp [runEval] at hr
  | cons v vs ih =>
    intro state hv
    have hviol : kindViolating rules k v = true :=
      hv v (List.mem_cons_self v vs)
    have hcount : kindCount (evaluate rules v state now).2.violations k =
        kindCount state.violations k + 1 := by
      rw [evaluate_kindCount rules v state now k t hk, hviol]
      simp [updateViolationCount]
    obtain ⟨ih1, ih2, ih3⟩ := ih (evaluate rules v state now).2
      (fun w hw => hv w (List.mem_cons_of_mem v hw))
    refine ⟨?_, ?_, ?_⟩
    · rw [runEval_cons]
      simp [ih1]
    · rw [runEval_cons]
      dsimp only
      rw [ih2, hcount, List.length_cons]
      omega
    · intro i r hr
      rw [runEval_cons] at hr
      dsimp only at hr
      cases i with
      | zero =>
        rw [List.get?_cons_zero] at hr
        injection hr with hr
        subst hr
        rw [evaluate_kindCode_mem rules v state now k t hk, hcount]
      | succ n =>
        rw [List.get?_cons_succ] at hr
        have hmem := ih3 n r hr
        rw [hcount] at hmem
        rw [hmem]
        omega

/-- C1: for any configured violation kind with `persist_samples = P`
(after the source's `|| 1` default) and one entity starting with a zero
counter for that kind, a run of exactly `P` consecutive violating
samples yields no reason of that kind on samples `1..P-1` and a reason
of that kind — hence an alerting decision — on sample `P`; and
evaluating any non-violating sample sets that kind's counter to exactly
0, restarting the streak. -/
theorem evaluate_persist_streak (rules : RulesConfig) (k : VKind)
    (samples : List VitalsData) (state : PatientState) (now : Int)
    (hk : kindThr rules k ≠ none)
    (hlen : samples.length = kindPersist rules k)
    (hviol : ∀ v ∈ samples, kindViolating rules k v = true)
    (h0 : kindCount state.violations k = 0) :
    (∀ i r, (runEval rules state now samples).1.get? i = some r →
      i + 1 < kindPersist rules k → kindCode k ∉ resultCodes r) ∧
    (∃ r, (runEval rules state now samples).1.get?
        (kindPersist rules k - 1) = some r ∧
      kindCode k ∈ resultCodes r ∧ r.shouldAlert = true) ∧
    (∀ (v : VitalsData) (st : PatientState) (now2 : Int),
      kindViolating rules k v = false →
      kindCount (evaluate rules v st now2).2.violations k = 0) := by
  obtain ⟨t, ht⟩ := Option.ne_none_iff_exists'.mp hk
  obtain ⟨hL, hC, hM⟩ := runEval_violating rules k t ht now samples state
    hviol
  have hpos := kindPersist_pos rules k
  refine ⟨?_, ?_, ?_⟩
  · intro i r hr hi hmem
    have := (hM i r hr).mp hmem
    rw [h0] at this
    omega
  · have hlt : kindPersist rules k - 1 <
        (runEval rules state now samples).1.length := by
      rw [hL, hlen]
      omega
    have hget := List.get?_eq_get hlt
    have hmem : kindCode k ∈ resultCodes
        ((runEval rules state now samples).1.get
          ⟨kindPersist rules k - 1, hlt⟩) := by
      rw [hM _ _ hget, h0]
      omega
    refine ⟨(runEval rules state now samples).1.get
      ⟨kindPersist rules k - 1, hlt⟩, hget, hmem, ?_⟩
    exact runEval_shouldAlert rules now samples state _
      (List.get_mem _ _ _) (List.ne_nil_of_mem hmem)
  · intro v st now2 hnv
    rw [evaluate_kindCount rules v st now2 k t ht, hnv]
    simp [updateViolationCount]

/-- C1 witness: applying the streak theorem to `rulesA` (persist 2) and
two violating samples, its reset clause at a concrete normal sample
yields a zero heart-rate-high counter. -/
theorem evaluate_persist_streak_witness :
    kindCount (evaluate rulesA sampleNormal
      (freshPatientState "P1" 0) 5).2.violations VKind.hrHigh = 0 :=
  (evaluate_persist_streak rulesA VKind.hrHigh [sampleHr130, sampleHr130]
    (freshPatientState "P1" 0) 0 (by decide) (by decide) (by decide)
    (by decide)).2.2 sampleNormal (freshPatientState "P1" 0) 5 (by decide)
